import Mathlib

/-!
Shallow embedding of the neon_billing_alerts core (src/models.py and
src/main.py). Python floats are modelled as rationals (`ℚ`); raised
`ValueError`s are modelled with `Except String`; `os.environ` is modelled
as a function `String → Option String`.
-/

namespace NeonBilling

/-- `PlanName = Literal["scale", "launch"]` (models.py line 4). -/
inductive PlanName where
  | scale
  | launch
deriving DecidableEq, Repr

/-- `AlertMode = Literal["always", "thresholds"]` (models.py line 5). -/
inductive AlertMode where
  | always
  | thresholds
deriving DecidableEq, Repr

/-- `UsagePricing` dataclass (models.py lines 9-16). -/
structure UsagePricing where
  storage_gb_month : ℚ
  compute_cu_hour : ℚ
  egress_gb : ℚ
  free_storage_gb_month : ℚ
  free_compute_cu_hour : ℚ
  free_egress_gb : ℚ
deriving DecidableEq, Repr

/-- `UsageTotals` dataclass (models.py lines 19-23). -/
structure UsageTotals where
  compute_cu_hours : ℚ
  storage_gb_month : ℚ
  egress_gb : ℚ
deriving DecidableEq, Repr

/-- `CostBreakdown` dataclass (models.py lines 26-30). -/
structure CostBreakdown where
  compute_cost : ℚ
  storage_cost : ℚ
  egress_cost : ℚ
deriving DecidableEq, Repr

/-- `AlertThresholds` dataclass (models.py lines 33-38). -/
structure AlertThresholds where
  max_spend_usd : Option ℚ
  max_cu_usage : Option ℚ
  max_storage_gb_month : Option ℚ
  max_egress_gb : Option ℚ
deriving DecidableEq, Repr

/-- `PLAN_CATALOG` (models.py lines 41-58), keyed by the `PlanName` enum. -/
def PLAN_CATALOG : PlanName → UsagePricing
  | .scale =>
    { storage_gb_month := 0.35
      compute_cu_hour := 0.222
      egress_gb := 0.10
      free_storage_gb_month := 0.0
      free_compute_cu_hour := 0.0
      free_egress_gb := 100.0 }
  | .launch =>
    { storage_gb_month := 0.35
      compute_cu_hour := 0.106
      egress_gb := 0.10
      free_storage_gb_month := 0.0
      free_compute_cu_hour := 0.0
      free_egress_gb := 100.0 }

/-- The string keys of `PLAN_CATALOG` (the Python dict is keyed by the
literal strings "scale" and "launch"). -/
def planOfString (s : String) : Option PlanName :=
  if s = "scale" then some PlanName.scale
  else if s = "launch" then some PlanName.launch
  else none

/-- `_compute_usage` (main.py lines 39-47), taking the three raw project
counters as arguments. -/
def _compute_usage (compute_time_seconds data_storage_bytes_hour data_transfer_bytes : ℚ) :
    UsageTotals :=
  let compute_cu_hours := compute_time_seconds / 3600
  let storage_gb_month := (data_storage_bytes_hour / 1024 ^ 3) / 730
  let egress_gb := data_transfer_bytes / 1024 ^ 3
  { compute_cu_hours := compute_cu_hours
    storage_gb_month := storage_gb_month
    egress_gb := egress_gb }

/-- `_compute_costs` (main.py lines 50-61). -/
def _compute_costs (plan : PlanName) (usage : UsageTotals) : CostBreakdown :=
  let pricing := PLAN_CATALOG plan
  let billable_compute := max 0 (usage.compute_cu_hours - pricing.free_compute_cu_hour)
  let billable_storage := max 0 (usage.storage_gb_month - pricing.free_storage_gb_month)
  let billable_egress := max 0 (usage.egress_gb - pricing.free_egress_gb)
  { compute_cost := billable_compute * pricing.compute_cu_hour
    storage_cost := billable_storage * pricing.storage_gb_month
    egress_cost := billable_egress * pricing.egress_gb }

/-- Plan validation performed by `main` before calling `_compute_costs`
(main.py lines 226-233): an unrecognized plan string raises, otherwise the
cost breakdown is computed. The Python error message embeds the plan value
and the catalog keys. -/
def computeCostsChecked (plan_value : String) (usage : UsageTotals) :
    Except String CostBreakdown :=
  match planOfString plan_value with
  | none =>
    Except.error ("Invalid plan: " ++ plan_value ++ ", expected one of [scale, launch]")
  | some plan => Except.ok (_compute_costs plan usage)

/-- `total_cost_value` as computed in `_evaluate_alerts` (main.py line 84). -/
def total_cost_value (costs : CostBreakdown) : ℚ :=
  costs.compute_cost + costs.storage_cost + costs.egress_cost

/-- `_evaluate_alerts` (main.py lines 64-114). The list is built by
successive appends exactly as in the source; each guard first tests the
optional threshold for presence, then compares with `>=`. -/
def _evaluate_alerts (mode : AlertMode) (thresholds : AlertThresholds)
    (usage : UsageTotals) (costs : CostBreakdown) : Except String (List String) :=
  match mode with
  | .always => Except.ok ["alert_mode=always"]
  | .thresholds =>
    if thresholds.max_spend_usd = none ∧ thresholds.max_cu_usage = none
        ∧ thresholds.max_storage_gb_month = none ∧ thresholds.max_egress_gb = none then
      Except.error "alert_mode=thresholds requires at least one threshold input."
    else
      let triggers0 : List String := []
      let triggers1 :=
        match thresholds.max_spend_usd with
        | some m =>
          if total_cost_value costs ≥ m then triggers0 ++ ["total_cost>=" ++ toString m]
          else triggers0
        | none => triggers0
      let triggers2 :=
        match thresholds.max_cu_usage with
        | some m =>
          if usage.compute_cu_hours ≥ m then triggers1 ++ ["compute_cu_hours>=" ++ toString m]
          else triggers1
        | none => triggers1
      let triggers3 :=
        match thresholds.max_storage_gb_month with
        | some m =>
          if usage.storage_gb_month ≥ m then triggers2 ++ ["storage_gb_month>=" ++ toString m]
          else triggers2
        | none => triggers2
      let triggers4 :=
        match thresholds.max_egress_gb with
        | some m =>
          if usage.egress_gb ≥ m then triggers3 ++ ["egress_gb>=" ++ toString m]
          else triggers3
        | none => triggers3
      Except.ok triggers4

/-- One threshold check in isolation: the (zero- or one-element) list of
reasons contributed by a single optional threshold compared against a
value. Used to state the per-check decomposition of `_evaluate_alerts`. -/
def checkOpt (th : Option ℚ) (value : ℚ) (label : String) : List String :=
  match th with
  | some m => if value ≥ m then [label ++ toString m] else []
  | none => []

/-- Python whitespace characters recognized by `str.strip()` with no
argument (space, tab, newline, carriage return, vertical tab, form feed). -/
def isPySpace (c : Char) : Bool :=
  c = ' ' || c = '\t' || c = '\n' || c = '\r' || c = '\x0b' || c = '\x0c'

/-- Python `str.strip()`: drop leading and trailing whitespace. -/
def pyStrip (s : String) : String :=
  String.mk (((s.data.dropWhile isPySpace).reverse.dropWhile isPySpace).reverse)

/-- Python `str.lower()` restricted to ASCII, which covers every string the
program compares after lowering. -/
def pyLower (s : String) : String :=
  String.mk (s.data.map Char.toLower)

/-- Digit run to a natural number. -/
def natOfDigits (cs : List Char) : Nat :=
  cs.foldl (fun acc c => acc * 10 + (c.toNat - 48)) 0

/-- All characters are decimal digits. -/
def allDigits (cs : List Char) : Bool :=
  cs.all Char.isDigit

/-- Mantissa of a decimal literal: digits with an optional decimal point,
at least one digit overall. -/
def parseMantissa (cs : List Char) : Option ℚ :=
  match cs.span (fun c => c != '.') with
  | (intPart, []) =>
    if allDigits intPart && !intPart.isEmpty then some (natOfDigits intPart : ℚ)
    else none
  | (intPart, _ :: fracPart) =>
    if allDigits intPart && allDigits fracPart && (!intPart.isEmpty || !fracPart.isEmpty) then
      some ((natOfDigits intPart : ℚ) + (natOfDigits fracPart : ℚ) / 10 ^ fracPart.length)
    else none

/-- Exponent part of a decimal literal: optional sign then digits. -/
def parseExpPart (cs : List Char) : Option ℤ :=
  match cs with
  | '+' :: r => if allDigits r && !r.isEmpty then some (natOfDigits r : ℤ) else none
  | '-' :: r => if allDigits r && !r.isEmpty then some (-(natOfDigits r : ℤ)) else none
  | r => if allDigits r && !r.isEmpty then some (natOfDigits r : ℤ) else none

/-- Unsigned decimal literal with optional exponent. -/
def parseUnsigned (cs : List Char) : Option ℚ :=
  match cs.span (fun c => c != 'e' && c != 'E') with
  | (mant, []) => parseMantissa mant
  | (mant, _ :: expPart) =>
    match parseMantissa mant, parseExpPart expPart with
    | some m, some e => some (m * (10 : ℚ) ^ e)
    | _, _ => none

/-- Python's built-in `float()` on plain decimal literals (optional sign,
digits, optional fraction, optional exponent), the shape every numeric
threshold value takes; `inf`/`nan` spellings and digit underscores are out
of scope for this embedding. -/
def pyFloat (s : String) : Option ℚ :=
  match s.data with
  | '+' :: r => parseUnsigned r
  | '-' :: r => (parseUnsigned r).map (fun q => -q)
  | r => parseUnsigned r

/-- `_parse_threshold` (main.py lines 29-36) over an environment modelled
as `String → Option String`: absent or blank values normalize to `none`,
non-numeric values raise. -/
def _parse_threshold (env : String → Option String) (name : String) :
    Except String (Option ℚ) :=
  match env name with
  | none => Except.ok none
  | some raw =>
    if pyStrip raw = "" then Except.ok none
    else
      match pyFloat (pyStrip raw) with
      | some v => Except.ok (some v)
      | none => Except.error (name ++ " must be a number, got " ++ raw)

/-- The required-variable pattern of `main` (main.py lines 177-190):
missing or blank raises, otherwise the stripped value is used. -/
def requiredEnv (env : String → Option String) (name : String) : Except String String :=
  match env name with
  | none => Except.error ("Environment variable " ++ name ++ " is required.")
  | some raw =>
    if pyStrip raw = "" then Except.error ("Environment variable " ++ name ++ " is required.")
    else Except.ok (pyStrip raw)

/-- The configuration `main` has assembled by line 221, just before the
billing API is contacted. -/
structure RunConfig where
  neon_api_key : String
  project_id : String
  webhook_url : String
  alert_mode_value : AlertMode
  thresholds : AlertThresholds
deriving DecidableEq, Repr

/-- The configuration phase of `main` (main.py lines 174-221), i.e.
everything executed before the `NeonAPI` call on line 223: required
variables, the ALERT_MODE default `"always"` with strip and lower,
threshold parsing, and the always-with-thresholds conflict check. A raised
`ValueError` is `Except.error`; `Except.ok` is exactly reaching the usage
fetch. -/
def runConfig (env : String → Option String) : Except String RunConfig :=
  match requiredEnv env "NEON_API_KEY" with
  | Except.error e => Except.error e
  | Except.ok neon_api_key =>
    match requiredEnv env "NEON_PROJECT_ID" with
    | Except.error e => Except.error e
    | Except.ok project_id =>
      match requiredEnv env "WEBHOOK_URL" with
      | Except.error e => Except.error e
      | Except.ok webhook_url =>
        match (if pyLower (pyStrip ((env "ALERT_MODE").getD "always")) = "always" then
            some AlertMode.always
          else if pyLower (pyStrip ((env "ALERT_MODE").getD "always")) = "thresholds" then
            some AlertMode.thresholds
          else none) with
        | none => Except.error "ALERT_MODE must be always or thresholds."
        | some mode =>
          match _parse_threshold env "MAX_SPEND_USD" with
          | Except.error e => Except.error e
          | Except.ok max_spend_usd =>
            match _parse_threshold env "MAX_CU_USAGE" with
            | Except.error e => Except.error e
            | Except.ok max_cu_usage =>
              match _parse_threshold env "MAX_STORAGE_GB_MONTH" with
              | Except.error e => Except.error e
              | Except.ok max_storage_gb_month =>
                match _parse_threshold env "MAX_EGRESS_GB" with
                | Except.error e => Except.error e
                | Except.ok max_egress_gb =>
                  if mode = AlertMode.always ∧ (max_spend_usd ≠ none ∨ max_cu_usage ≠ none
                      ∨ max_storage_gb_month ≠ none ∨ max_egress_gb ≠ none) then
                    Except.error "alert_mode=always cannot be combined with thresholds."
                  else
                    Except.ok ⟨neon_api_key, project_id, webhook_url, mode,
                      ⟨max_spend_usd, max_cu_usage, max_storage_gb_month, max_egress_gb⟩⟩

/-- The four threshold environment variable names (main.py lines 198-203). -/
def thresholdVarNames : List String :=
  ["MAX_SPEND_USD", "MAX_CU_USAGE", "MAX_STORAGE_GB_MONTH", "MAX_EGRESS_GB"]

/-- All three unit prices of every catalog plan are non-negative. -/
lemma catalog_prices_nonneg (plan : PlanName) :
    0 ≤ (PLAN_CATALOG plan).compute_cu_hour
      ∧ 0 ≤ (PLAN_CATALOG plan).storage_gb_month
      ∧ 0 ≤ (PLAN_CATALOG plan).egress_gb := by
  cases plan <;> norm_num [PLAN_CATALOG]

/-- In `thresholds` mode with at least one threshold present, the evaluator
returns the concatenation of the four independent checks, in source order. -/
lemma evaluate_alerts_eq_checks (t : AlertThresholds) (u : UsageTotals) (c : CostBreakdown)
    (h : ¬(t.max_spend_usd = none ∧ t.max_cu_usage = none
        ∧ t.max_storage_gb_month = none ∧ t.max_egress_gb = none)) :
    _evaluate_alerts AlertMode.thresholds t u c
      = Except.ok (checkOpt t.max_spend_usd (total_cost_value c) "total_cost>="
          ++ checkOpt t.max_cu_usage u.compute_cu_hours "compute_cu_hours>="
          ++ checkOpt t.max_storage_gb_month u.storage_gb_month "storage_gb_month>="
          ++ checkOpt t.max_egress_gb u.egress_gb "egress_gb>=") := by
  rcases h1 : t.max_spend_usd with _ | m1 <;>
    rcases h2 : t.max_cu_usage with _ | m2 <;>
    rcases h3 : t.max_storage_gb_month with _ | m3 <;>
    rcases h4 : t.max_egress_gb with _ | m4
  · exact absurd ⟨h1, h2, h3, h4⟩ h
  all_goals
    simp [_evaluate_alerts, h1, h2, h3, h4, checkOpt]
    try (split_ifs <;> simp)

/-- A single check is empty exactly when it is absent or not met. -/
lemma checkOpt_eq_nil (th : Option ℚ) (v : ℚ) (s : String) :
    checkOpt th v s = [] ↔ ¬∃ m, th = some m ∧ v ≥ m := by
  rcases th with _ | m
  · simp [checkOpt]
  · by_cases hv : v ≥ m <;> simp [checkOpt, hv]

/-- A configured and met check contributes exactly its one reason string. -/
lemma checkOpt_triggered (m v : ℚ) (s : String) (hv : v ≥ m) :
    checkOpt (some m) v s = [s ++ toString m] := by
  simp [checkOpt, hv]

/-- Claim C1: for every catalog plan and every `UsageTotals`, each category
cost equals `max 0 (usage - free_allowance) * unit_price`, usage at or below
the free allowance gives a zero cost for that category, and every cost field
is non-negative. -/
theorem compute_costs_per_category (plan : PlanName) (usage : UsageTotals) :
    ((_compute_costs plan usage).compute_cost
        = max 0 (usage.compute_cu_hours - (PLAN_CATALOG plan).free_compute_cu_hour)
            * (PLAN_CATALOG plan).compute_cu_hour
      ∧ (_compute_costs plan usage).storage_cost
        = max 0 (usage.storage_gb_month - (PLAN_CATALOG plan).free_storage_gb_month)
            * (PLAN_CATALOG plan).storage_gb_month
      ∧ (_compute_costs plan usage).egress_cost
        = max 0 (usage.egress_gb - (PLAN_CATALOG plan).free_egress_gb)
            * (PLAN_CATALOG plan).egress_gb)
  ∧ ((usage.compute_cu_hours ≤ (PLAN_CATALOG plan).free_compute_cu_hour →
        (_compute_costs plan usage).compute_cost = 0)
      ∧ (usage.storage_gb_month ≤ (PLAN_CATALOG plan).free_storage_gb_month →
        (_compute_costs plan usage).storage_cost = 0)
      ∧ (usage.egress_gb ≤ (PLAN_CATALOG plan).free_egress_gb →
        (_compute_costs plan usage).egress_cost = 0))
  ∧ (0 ≤ (_compute_costs plan usage).compute_cost
      ∧ 0 ≤ (_compute_costs plan usage).storage_cost
      ∧ 0 ≤ (_compute_costs plan usage).egress_cost) := by
  obtain ⟨hpc, hps, hpe⟩ := catalog_prices_nonneg plan
  refine ⟨⟨rfl, rfl, rfl⟩, ⟨?_, ?_, ?_⟩, ?_, ?_, ?_⟩
  · intro hle
    show max 0 (usage.compute_cu_hours - (PLAN_CATALOG plan).free_compute_cu_hour)
        * (PLAN_CATALOG plan).compute_cu_hour = 0
    rw [max_eq_left (by linarith), zero_mul]
  · intro hle
    show max 0 (usage.storage_gb_month - (PLAN_CATALOG plan).free_storage_gb_month)
        * (PLAN_CATALOG plan).storage_gb_month = 0
    rw [max_eq_left (by linarith), zero_mul]
  · intro hle
    show max 0 (usage.egress_gb - (PLAN_CATALOG plan).free_egress_gb)
        * (PLAN_CATALOG plan).egress_gb = 0
    rw [max_eq_left (by linarith), zero_mul]
  · exact mul_nonneg (le_max_left 0 _) hpc
  · exact mul_nonneg (le_max_left 0 _) hps
  · exact mul_nonneg (le_max_left 0 _) hpe

/-- Witness for C1 at plan `scale`, usage `⟨1, 2, 50⟩`: egress is below the
free 100 GiB allowance so its cost is zero, and the compute cost is
non-negative. -/
theorem compute_costs_per_category_witness :
    (_compute_costs PlanName.scale ⟨1, 2, 50⟩).egress_cost = 0
  ∧ 0 ≤ (_compute_costs PlanName.scale ⟨1, 2, 50⟩).compute_cost := by
  have h := compute_costs_per_category PlanName.scale ⟨1, 2, 50⟩
  exact ⟨h.2.1.2.2 (by norm_num [PLAN_CATALOG]), h.2.2.1⟩

/-- Claim C2: in `thresholds` mode with at least one threshold present, the
result is the ordered concatenation of the four independent checks (total
cost vs `max_spend_usd`, compute vs `max_cu_usage`, storage vs
`max_storage_gb_month`, egress vs `max_egress_gb`), absent thresholds are
skipped, several reasons can appear in one result, and the result is empty
exactly when no configured threshold is met. -/
theorem evaluate_alerts_thresholds_decomposition (t : AlertThresholds) (u : UsageTotals)
    (c : CostBreakdown)
    (h : ¬(t.max_spend_usd = none ∧ t.max_cu_usage = none
        ∧ t.max_storage_gb_month = none ∧ t.max_egress_gb = none)) :
    (_evaluate_alerts AlertMode.thresholds t u c
      = Except.ok (checkOpt t.max_spend_usd (total_cost_value c) "total_cost>="
          ++ checkOpt t.max_cu_usage u.compute_cu_hours "compute_cu_hours>="
          ++ checkOpt t.max_storage_gb_month u.storage_gb_month "storage_gb_month>="
          ++ checkOpt t.max_egress_gb u.egress_gb "egress_gb>="))
  ∧ (_evaluate_alerts AlertMode.thresholds t u c = Except.ok []
      ↔ ¬(∃ m, t.max_spend_usd = some m ∧ total_cost_value c ≥ m)
        ∧ ¬(∃ m, t.max_cu_usage = some m ∧ u.compute_cu_hours ≥ m)
        ∧ ¬(∃ m, t.max_storage_gb_month = some m ∧ u.storage_gb_month ≥ m)
        ∧ ¬(∃ m, t.max_egress_gb = some m ∧ u.egress_gb ≥ m)) := by
  have key := evaluate_alerts_eq_checks t u c h
  refine ⟨key, ?_⟩
  rw [key]
  simp only [Except.ok.injEq, List.append_eq_nil, checkOpt_eq_nil, and_assoc]

/-- Witness for C2: spend threshold 5 and egress threshold 150 both met
(total cost 10, egress 200) produce the two reasons in check order. -/
theorem evaluate_alerts_thresholds_decomposition_witness :
    _evaluate_alerts AlertMode.thresholds ⟨some 5, none, none, some 150⟩ ⟨0, 0, 200⟩ ⟨0, 0, 10⟩
      = Except.ok ["total_cost>=5", "egress_gb>=150"] := by
  have h := evaluate_alerts_thresholds_decomposition ⟨some 5, none, none, some 150⟩
    ⟨0, 0, 200⟩ ⟨0, 0, 10⟩ (by simp)
  rw [h.1]
  have ht : total_cost_value ⟨0, 0, 10⟩ = 10 := by norm_num [total_cost_value]
  rw [ht]
  rfl

/-- Claim C3: in `thresholds` mode every comparison is inclusive: a figure
exactly equal to its configured threshold produces the corresponding
trigger reason, for each of the four checks. -/
theorem evaluate_alerts_boundary_inclusive (t : AlertThresholds) (u : UsageTotals)
    (c : CostBreakdown) (m : ℚ) :
    (t.max_spend_usd = some m → total_cost_value c = m →
      ∃ l, _evaluate_alerts AlertMode.thresholds t u c = Except.ok l
        ∧ ("total_cost>=" ++ toString m) ∈ l)
  ∧ (t.max_cu_usage = some m → u.compute_cu_hours = m →
      ∃ l, _evaluate_alerts AlertMode.thresholds t u c = Except.ok l
        ∧ ("compute_cu_hours>=" ++ toString m) ∈ l)
  ∧ (t.max_storage_gb_month = some m → u.storage_gb_month = m →
      ∃ l, _evaluate_alerts AlertMode.thresholds t u c = Except.ok l
        ∧ ("storage_gb_month>=" ++ toString m) ∈ l)
  ∧ (t.max_egress_gb = some m → u.egress_gb = m →
      ∃ l, _evaluate_alerts AlertMode.thresholds t u c = Except.ok l
        ∧ ("egress_gb>=" ++ toString m) ∈ l) := by
  refine ⟨?_, ?_, ?_, ?_⟩ <;> intro hsome heq
  · have hne : ¬(t.max_spend_usd = none ∧ t.max_cu_usage = none
        ∧ t.max_storage_gb_month = none ∧ t.max_egress_gb = none) := by simp [hsome]
    refine ⟨_, evaluate_alerts_eq_checks t u c hne, ?_⟩
    rw [hsome, checkOpt_triggered m _ _ heq.ge]
    simp [List.mem_append]
  · have hne : ¬(t.max_spend_usd = none ∧ t.max_cu_usage = none
        ∧ t.max_storage_gb_month = none ∧ t.max_egress_gb = none) := by simp [hsome]
    refine ⟨_, evaluate_alerts_eq_checks t u c hne, ?_⟩
    rw [hsome, checkOpt_triggered m _ _ heq.ge]
    simp [List.mem_append]
  · have hne : ¬(t.max_spend_usd = none ∧ t.max_cu_usage = none
        ∧ t.max_storage_gb_month = none ∧ t.max_egress_gb = none) := by simp [hsome]
    refine ⟨_, evaluate_alerts_eq_checks t u c hne, ?_⟩
    rw [hsome, checkOpt_triggered m _ _ heq.ge]
    simp [List.mem_append]
  · have hne : ¬(t.max_spend_usd = none ∧ t.max_cu_usage = none
        ∧ t.max_storage_gb_month = none ∧ t.max_egress_gb = none) := by simp [hsome]
    refine ⟨_, evaluate_alerts_eq_checks t u c hne, ?_⟩
    rw [hsome, checkOpt_triggered m _ _ heq.ge]
    simp [List.mem_append]

/-- Witness for C3: total cost exactly equal to the configured spend
threshold 5 triggers the spend reason. -/
theorem evaluate_alerts_boundary_inclusive_witness :
    ∃ l, _evaluate_alerts AlertMode.thresholds ⟨some 5, none, none, none⟩ ⟨0, 0, 0⟩ ⟨5, 0, 0⟩
        = Except.ok l ∧ ("total_cost>=" ++ toString (5 : ℚ)) ∈ l :=
  (evaluate_alerts_boundary_inclusive ⟨some 5, none, none, none⟩ ⟨0, 0, 0⟩ ⟨5, 0, 0⟩ 5).1
    rfl (by norm_num [total_cost_value])

/-- Claim C4: in `always` mode the evaluator returns exactly the one fixed
reason string, for every thresholds value, usage and costs. -/
theorem evaluate_alerts_always (t : AlertThresholds) (u : UsageTotals) (c : CostBreakdown) :
    _evaluate_alerts AlertMode.always t u c = Except.ok ["alert_mode=always"] := rfl

/-- Claim C5: in `thresholds` mode the evaluator fails (with the
no-thresholds-configured error) if and only if all four threshold fields
are absent, and whenever it returns a trigger list some threshold was
present. -/
theorem evaluate_alerts_requires_thresholds (t : AlertThresholds) (u : UsageTotals)
    (c : CostBreakdown) :
    ((∃ e, _evaluate_alerts AlertMode.thresholds t u c = Except.error e)
      ↔ (t.max_spend_usd = none ∧ t.max_cu_usage = none
          ∧ t.max_storage_gb_month = none ∧ t.max_egress_gb = none))
  ∧ (∀ e, _evaluate_alerts AlertMode.thresholds t u c = Except.error e →
      e = "alert_mode=thresholds requires at least one threshold input.")
  ∧ (∀ e l, _evaluate_alerts AlertMode.thresholds t u c = Except.error e →
      _evaluate_alerts AlertMode.thresholds t u c ≠ Except.ok l) := by
  by_cases hall : t.max_spend_usd = none ∧ t.max_cu_usage = none
      ∧ t.max_storage_gb_month = none ∧ t.max_egress_gb = none
  · obtain ⟨h1, h2, h3, h4⟩ := hall
    have herr : _evaluate_alerts AlertMode.thresholds t u c
        = Except.error "alert_mode=thresholds requires at least one threshold input." := by
      simp [_evaluate_alerts, h1, h2, h3, h4]
    refine ⟨⟨fun _ => ⟨h1, h2, h3, h4⟩, fun _ => ⟨_, herr⟩⟩, ?_, ?_⟩
    · intro e he
      rw [herr] at he
      exact (Except.error.injEq _ _).mp he.symm
    · intro e l _ hok
      rw [herr] at hok
      exact Except.noConfusion hok
  · have hok := evaluate_alerts_eq_checks t u c hall
    refine ⟨⟨?_, fun hc => absurd hc hall⟩, ?_, ?_⟩
    · rintro ⟨e, he⟩
      rw [hok] at he
      exact Except.noConfusion he
    · intro e he
      rw [hok] at he
      exact absurd he (by simp)
    · intro e l he
      rw [hok] at he
      exact Except.noConfusion he

/-- Witness for C5: with all four thresholds absent the evaluator fails. -/
theorem evaluate_alerts_requires_thresholds_witness :
    ∃ e, _evaluate_alerts AlertMode.thresholds ⟨none, none, none, none⟩ ⟨0, 0, 0⟩ ⟨0, 0, 0⟩
      = Except.error e :=
  (evaluate_alerts_requires_thresholds ⟨none, none, none, none⟩ ⟨0, 0, 0⟩ ⟨0, 0, 0⟩).1.mpr
    ⟨rfl, rfl, rfl, rfl⟩

/-- Claim C6: the normalizer computes exactly `computeSeconds / 3600`,
`(storageByteHours / 2^30) / 730` and `transferBytes / 2^30`, with no
rounding, and all-zero raw inputs yield all-zero totals. -/
theorem compute_usage_conversions (cs sbh tb : ℚ) :
    _compute_usage cs sbh tb = ⟨cs / 3600, sbh / 2 ^ 30 / 730, tb / 2 ^ 30⟩
  ∧ _compute_usage 0 0 0 = ⟨0, 0, 0⟩ := by
  constructor
  · simp only [_compute_usage, UsageTotals.mk.injEq]
    norm_num
  · simp only [_compute_usage, UsageTotals.mk.injEq]
    norm_num

/-- Claim C7: for non-negative raw inputs every normalized total is
non-negative, and the normalizer is linear per input: doubling one raw
counter doubles exactly its own total and leaves the other two unchanged. -/
theorem compute_usage_nonneg_linear (cs sbh tb : ℚ)
    (h1 : 0 ≤ cs) (h2 : 0 ≤ sbh) (h3 : 0 ≤ tb) :
    (0 ≤ (_compute_usage cs sbh tb).compute_cu_hours
      ∧ 0 ≤ (_compute_usage cs sbh tb).storage_gb_month
      ∧ 0 ≤ (_compute_usage cs sbh tb).egress_gb)
  ∧ _compute_usage (2 * cs) sbh tb
      = ⟨2 * (_compute_usage cs sbh tb).compute_cu_hours,
          (_compute_usage cs sbh tb).storage_gb_month,
          (_compute_usage cs sbh tb).egress_gb⟩
  ∧ _compute_usage cs (2 * sbh) tb
      = ⟨(_compute_usage cs sbh tb).compute_cu_hours,
          2 * (_compute_usage cs sbh tb).storage_gb_month,
          (_compute_usage cs sbh tb).egress_gb⟩
  ∧ _compute_usage cs sbh (2 * tb)
      = ⟨(_compute_usage cs sbh tb).compute_cu_hours,
          (_compute_usage cs sbh tb).storage_gb_month,
          2 * (_compute_usage cs sbh tb).egress_gb⟩ := by
  refine ⟨⟨?_, ?_, ?_⟩, ?_, ?_, ?_⟩
  · exact div_nonneg h1 (by norm_num)
  · exact div_nonneg (div_nonneg h2 (by norm_num)) (by norm_num)
  · exact div_nonneg h3 (by norm_num)
  all_goals
    simp only [_compute_usage, UsageTotals.mk.injEq]
    refine ⟨by ring_nf, by ring_nf, by ring_nf⟩

/-- Witness for C7 at raw inputs `(1, 1, 1)`: non-negative compute total and
doubling of the compute counter doubles only the compute total. -/
theorem compute_usage_nonneg_linear_witness :
    0 ≤ (_compute_usage 1 1 1).compute_cu_hours
  ∧ _compute_usage (2 * 1) 1 1
      = ⟨2 * (_compute_usage 1 1 1).compute_cu_hours,
          (_compute_usage 1 1 1).storage_gb_month,
          (_compute_usage 1 1 1).egress_gb⟩ := by
  have h := compute_usage_nonneg_linear 1 1 1 (by norm_num) (by norm_num) (by norm_num)
  exact ⟨h.1.1, h.2.1⟩

/-- Claim C8: a plan string other than "scale" or "launch" fails catalog
validation with the invalid-plan error before any cost computation, and no
`CostBreakdown` is produced for it. -/
theorem unknown_plan_rejected (s : String) (u : UsageTotals)
    (h1 : s ≠ "scale") (h2 : s ≠ "launch") :
    computeCostsChecked s u
      = Except.error ("Invalid plan: " ++ s ++ ", expected one of [scale, launch]")
  ∧ ∀ cb, computeCostsChecked s u ≠ Except.ok cb := by
  have hp : planOfString s = none := by simp [planOfString, h1, h2]
  exact ⟨by simp [computeCostsChecked, hp], fun cb => by simp [computeCostsChecked, hp]⟩

/-- Witness for C8: the plan string "free" is rejected. -/
theorem unknown_plan_rejected_witness :
    computeCostsChecked "free" ⟨0, 0, 0⟩
      = Except.error "Invalid plan: free, expected one of [scale, launch]" :=
  (unknown_plan_rejected "free" ⟨0, 0, 0⟩ (by decide) (by decide)).1

/-- Claim C9: the concrete scenario on plan `scale` with raw inputs
`(0, 0, 200 * 2^30)`: 200 egress units, zero compute and storage cost,
egress cost 10, and an egress trigger with `max_egress_gb = 150`. The
catalog figures it relies on (free egress 100, egress unit price 0.10) are
checked as part of the statement. -/
theorem scenario_scale_egress_200gib :
    (PLAN_CATALOG PlanName.scale).free_egress_gb = 100
  ∧ (PLAN_CATALOG PlanName.scale).egress_gb = 0.10
  ∧ (_compute_usage 0 0 (200 * 2 ^ 30)).egress_gb = 200
  ∧ _compute_costs PlanName.scale (_compute_usage 0 0 (200 * 2 ^ 30)) = ⟨0, 0, 10⟩
  ∧ _evaluate_alerts AlertMode.thresholds ⟨none, none, none, some 150⟩
      (_compute_usage 0 0 (200 * 2 ^ 30))
      (_compute_costs PlanName.scale (_compute_usage 0 0 (200 * 2 ^ 30)))
      = Except.ok ["egress_gb>=150"] := by
  have husage : _compute_usage 0 0 (200 * 2 ^ 30) = ⟨0, 0, 200⟩ := by
    simp only [_compute_usage, UsageTotals.mk.injEq]
    norm_num
  have hcost : _compute_costs PlanName.scale (⟨0, 0, 200⟩ : UsageTotals) = ⟨0, 0, 10⟩ := by
    norm_num [_compute_costs, PLAN_CATALOG, CostBreakdown.mk.injEq]
  refine ⟨by norm_num [PLAN_CATALOG], by norm_num [PLAN_CATALOG], by rw [husage],
    by rw [husage, hcost], ?_⟩
  rw [husage, hcost]
  rfl

/-- When every value supplied for a threshold variable parses as a number,
threshold parsing succeeds, and yields a configured threshold exactly when
the variable was supplied non-blank. -/
lemma parse_threshold_ok_of_numeric (env : String → Option String) (name : String)
    (hnum : ∀ v, env name = some v → pyStrip v ≠ "" → (pyFloat (pyStrip v)).isSome) :
    ∃ o, _parse_threshold env name = Except.ok o
      ∧ (o ≠ none ↔ ∃ v, env name = some v ∧ pyStrip v ≠ "") := by
  cases henv : env name with
  | none =>
    refine ⟨none, by simp [_parse_threshold, henv], ?_⟩
    simp [henv]
  | some v =>
    by_cases hne : pyStrip v = ""
    · refine ⟨none, by simp [_parse_threshold, henv, hne], ?_⟩
      simp [henv, hne]
    · obtain ⟨q, hq⟩ := Option.isSome_iff_exists.mp (hnum v henv hne)
      refine ⟨some q, by simp [_parse_threshold, henv, hne, hq], ?_⟩
      simp [henv, hne]

/-- Environment refuting claim C10 as stated: all three required settings
are present, `ALERT_MODE` is unset, and `MAX_SPEND_USD` is supplied
non-empty but non-numeric. -/
def envNonNumericThreshold : String → Option String := fun name =>
  if name = "NEON_API_KEY" then some "key"
  else if name = "NEON_PROJECT_ID" then some "proj"
  else if name = "WEBHOOK_URL" then some "https://hooks.slack.com/services/T/B/X"
  else if name = "MAX_SPEND_USD" then some "abc"
  else none

/-- Counterexample to C10 as stated: with `ALERT_MODE` unset and the
threshold variable `MAX_SPEND_USD` supplied non-empty (value "abc"), the
run aborts with the numeric-parse error, not with the
always-cannot-be-combined-with-thresholds error. -/
theorem alert_mode_default_conflict_cex :
    (envNonNumericThreshold "ALERT_MODE" = none
      ∧ envNonNumericThreshold "MAX_SPEND_USD" = some "abc"
      ∧ pyStrip "abc" ≠ "")
  ∧ runConfig envNonNumericThreshold
      = Except.error "MAX_SPEND_USD must be a number, got abc"
  ∧ runConfig envNonNumericThreshold
      ≠ Except.error "alert_mode=always cannot be combined with thresholds." := by
  refine ⟨⟨rfl, rfl, by decide⟩, rfl, ?_⟩
  intro hcontra
  rw [show runConfig envNonNumericThreshold
      = Except.error "MAX_SPEND_USD must be a number, got abc" from rfl] at hcontra
  have : ("MAX_SPEND_USD must be a number, got abc" : String)
      = "alert_mode=always cannot be combined with thresholds." :=
    (Except.error.injEq _ _).mp hcontra
  exact absurd this (by decide)

/-- Claim C10 (amended): with the three required settings supplied
non-blank, `ALERT_MODE` unset (so the mode defaults, after strip and
lower, to `always`), every supplied threshold value numeric, and at least
one threshold variable supplied non-blank, the configuration phase — which
runs before any usage fetch or notification — aborts with the
always-cannot-be-combined-with-thresholds error. -/
theorem alert_mode_defaults_always_conflict (env : String → Option String)
    (hmode : env "ALERT_MODE" = none)
    (hkey : ∃ v, env "NEON_API_KEY" = some v ∧ pyStrip v ≠ "")
    (hproj : ∃ v, env "NEON_PROJECT_ID" = some v ∧ pyStrip v ≠ "")
    (hweb : ∃ v, env "WEBHOOK_URL" = some v ∧ pyStrip v ≠ "")
    (hnum : ∀ name ∈ thresholdVarNames, ∀ v, env name = some v → pyStrip v ≠ "" →
      (pyFloat (pyStrip v)).isSome)
    (hone : ∃ name ∈ thresholdVarNames, ∃ v, env name = some v ∧ pyStrip v ≠ "") :
    runConfig env = Except.error "alert_mode=always cannot be combined with thresholds." := by
  obtain ⟨vk, hvk, hvkne⟩ := hkey
  obtain ⟨vp, hvp, hvpne⟩ := hproj
  obtain ⟨vw, hvw, hvwne⟩ := hweb
  have hk : requiredEnv env "NEON_API_KEY" = Except.ok (pyStrip vk) := by
    simp [requiredEnv, hvk, hvkne]
  have hp : requiredEnv env "NEON_PROJECT_ID" = Except.ok (pyStrip vp) := by
    simp [requiredEnv, hvp, hvpne]
  have hw : requiredEnv env "WEBHOOK_URL" = Except.ok (pyStrip vw) := by
    simp [requiredEnv, hvw, hvwne]
  have hmem : ∀ name ∈ thresholdVarNames,
      ∀ v, env name = some v → pyStrip v ≠ "" → (pyFloat (pyStrip v)).isSome := hnum
  obtain ⟨o1, ho1, hi1⟩ := parse_threshold_ok_of_numeric env "MAX_SPEND_USD"
    (hmem "MAX_SPEND_USD" (by simp [thresholdVarNames]))
  obtain ⟨o2, ho2, hi2⟩ := parse_threshold_ok_of_numeric env "MAX_CU_USAGE"
    (hmem "MAX_CU_USAGE" (by simp [thresholdVarNames]))
  obtain ⟨o3, ho3, hi3⟩ := parse_threshold_ok_of_numeric env "MAX_STORAGE_GB_MONTH"
    (hmem "MAX_STORAGE_GB_MONTH" (by simp [thresholdVarNames]))
  obtain ⟨o4, ho4, hi4⟩ := parse_threshold_ok_of_numeric env "MAX_EGRESS_GB"
    (hmem "MAX_EGRESS_GB" (by simp [thresholdVarNames]))
  have hsome : o1 ≠ none ∨ o2 ≠ none ∨ o3 ≠ none ∨ o4 ≠ none := by
    obtain ⟨name, hnm, v, hv, hne⟩ := hone
    simp only [thresholdVarNames, List.mem_cons, List.not_mem_nil, or_false] at hnm
    rcases hnm with rfl | rfl | rfl | rfl
    · exact Or.inl (hi1.mpr ⟨v, hv, hne⟩)
    · exact Or.inr (Or.inl (hi2.mpr ⟨v, hv, hne⟩))
    · exact Or.inr (Or.inr (Or.inl (hi3.mpr ⟨v, hv, hne⟩)))
    · exact Or.inr (Or.inr (Or.inr (hi4.mpr ⟨v, hv, hne⟩)))
  have hdefault : pyLower (pyStrip ((env "ALERT_MODE").getD "always")) = "always" := by
    rw [hmode]
    decide
  simp only [runConfig, hk, hp, hw, hdefault, if_pos rfl, ho1, ho2, ho3, ho4]
  exact if_pos ⟨rfl, hsome⟩

/-- Witness for the amended C10: a concrete environment with the three
required settings, `ALERT_MODE` unset and `MAX_SPEND_USD=5` aborts with
the conflict error. -/
def envDefaultConflict : String → Option String := fun name =>
  if name = "NEON_API_KEY" then some "key"
  else if name = "NEON_PROJECT_ID" then some "proj"
  else if name = "WEBHOOK_URL" then some "https://hooks.slack.com/services/T/B/X"
  else if name = "MAX_SPEND_USD" then some "5"
  else none

/-- Witness applying the amended C10 theorem to `envDefaultConflict`. -/
theorem alert_mode_defaults_always_conflict_witness :
    runConfig envDefaultConflict
      = Except.error "alert_mode=always cannot be combined with thresholds." := by
  apply alert_mode_defaults_always_conflict
  · rfl
  · exact ⟨"key", rfl, by decide⟩
  · exact ⟨"proj", rfl, by decide⟩
  · exact ⟨"https://hooks.slack.com/services/T/B/X", rfl, by decide⟩
  · intro name hnm v hv hne
    simp only [thresholdVarNames, List.mem_cons, List.not_mem_nil, or_false] at hnm
    rcases hnm with rfl | rfl | rfl | rfl
    · rw [show envDefaultConflict "MAX_SPEND_USD" = some "5" from rfl] at hv
      injection hv with hv
      subst hv
      decide
    · rw [show envDefaultConflict "MAX_CU_USAGE" = none from rfl] at hv
      exact Option.noConfusion hv
    · rw [show envDefaultConflict "MAX_STORAGE_GB_MONTH" = none from rfl] at hv
      exact Option.noConfusion hv
    · rw [show envDefaultConflict "MAX_EGRESS_GB" = none from rfl] at hv
      exact Option.noConfusion hv
  · refine ⟨"MAX_SPEND_USD", ?_, "5", rfl, ?_⟩
    · simp [thresholdVarNames]
    · decide

end NeonBilling
